import Mathlib

/-!
# PicoRET — `Web/svelte.config.js`

A shallow embedding of the module `Web/svelte.config.js`.  The module imports three
functions (`adapter`, `vitePreprocess`, `htmlMinifierAdaptor`), evaluates one object
literal in which each of them is called once, and exports the resulting object.

* `JSVal` is the fragment of JavaScript values the module builds (booleans, strings,
  arrays, objects with ordered keys) plus values that come from the imported packages.
* `config` is the object literal, written once, over an arbitrary monad in which the
  imported functions run; property values are evaluated in source order.
* `configValue` runs it with side-effect-free imports, `load` runs it against imports
  that record every call and may throw.
-/

namespace PicoRET

/-- JavaScript values: the literal forms used by `svelte.config.js`, and `ext` for a
value produced by an imported package. -/
inductive JSVal (X : Type) where
  | bool : Bool → JSVal X
  | str : String → JSVal X
  | arr : List (JSVal X) → JSVal X
  | obj : List (String × JSVal X) → JSVal X
  | ext : X → JSVal X

/-- Own-property read `o[k]` on an object value; `none` when `o` is not an object or has
no such key. -/
def JSVal.get {X : Type} (o : JSVal X) (k : String) : Option (JSVal X) :=
  match o with
  | .obj fields => fields.lookup k
  | _ => none

/-- Chained property read `o[k₁][k₂]…`. -/
def JSVal.getPath {X : Type} (o : JSVal X) (path : List String) : Option (JSVal X) :=
  path.foldl (fun cur k => cur.bind (fun v => v.get k)) (some o)

/-- Own property names of an object value, in insertion order. -/
def JSVal.keys {X : Type} (o : JSVal X) : List String :=
  match o with
  | .obj fields => fields.map Prod.fst
  | _ => []

/-- Number of elements of an array value. -/
def JSVal.length? {X : Type} (v : JSVal X) : Option Nat :=
  match v with
  | .arr items => some items.length
  | _ => none

/-- The argument object of the `adapter` call, lines 23–26:
`{ fallback: 'index.html', precompress: true }`. -/
def adapterOptions {X : Type} : JSVal X :=
  .obj [("fallback", .str "index.html"), ("precompress", .bool true)]

/-- The `compilerOptions` literal, lines 11–17. -/
def compilerOptions {X : Type} : JSVal X :=
  .obj [("runes", .bool true),
        ("preserveComments", .bool false),
        ("preserveWhitespace", .bool false),
        ("discloseVersion", .bool false),
        ("modernAst", .bool true)]

/-- The `kit.prerender` literal, lines 27–29. -/
def prerender {X : Type} : JSVal X :=
  .obj [("entries", .arr [])]

/-- The `kit.alias` literal, lines 30–35. -/
def kitAlias {X : Type} : JSVal X :=
  .obj [("$", .str "src"),
        ("$components", .str "src/lib/components"),
        ("$assets", .str "src/assets")]

/-- The object literal of lines 7–37, `const config = { … }`, over the three imports.
An imported function takes its argument list.  Property values are evaluated in source
order, and the argument `adapter({…})` is evaluated before `htmlMinifierAdaptor` is
called. -/
def config {m : Type → Type} [Monad m] {X : Type}
    (vitePreprocess adapter htmlMinifierAdaptor : List (JSVal X) → m (JSVal X)) :
    m (JSVal X) := do
  let preprocess ← vitePreprocess []
  let inner ← adapter [adapterOptions]
  let wrapped ← htmlMinifierAdaptor [inner]
  pure (.obj [("preprocess", preprocess),
              ("compilerOptions", compilerOptions),
              ("kit", .obj [("adapter", wrapped),
                            ("prerender", prerender),
                            ("alias", kitAlias)])])

/-- The default export when the three imports are side-effect-free functions. -/
def configValue {X : Type}
    (vitePreprocess adapter htmlMinifierAdaptor : List (JSVal X) → JSVal X) : JSVal X :=
  Id.run (config (fun args => pure (vitePreprocess args))
                 (fun args => pure (adapter args))
                 (fun args => pure (htmlMinifierAdaptor args)))

/-- The three imported functions. -/
inductive Callee where
  | vitePreprocess
  | adapter
  | htmlMinifierAdaptor
  deriving DecidableEq, Repr

/-- One recorded call: which import was called, and with which arguments. -/
structure Call (X : Type) where
  callee : Callee
  args : List (JSVal X)

/-- Evaluation against recording imports: the log of calls made so far is threaded
through, and a throw (`Except.error`) ends evaluation, keeping the log. -/
def Eval (X E α : Type) : Type := List (Call X) → Except E α × List (Call X)

instance (X E : Type) : Monad (Eval X E) where
  pure a := fun log => (.ok a, log)
  bind m f := fun log =>
    match m log with
    | (.ok a, log1) => f a log1
    | (.error e, log1) => (.error e, log1)

/-- A recording stand-in for an import: the call is appended to the log, then the
behaviour `f` decides what is returned or thrown. -/
def mock {X E : Type} (c : Callee) (f : List (JSVal X) → Except E (JSVal X)) :
    List (JSVal X) → Eval X E (JSVal X) :=
  fun args log => (f args, log ++ [⟨c, args⟩])

/-- Evaluating the module with the three imports replaced by recording stand-ins,
starting from the call log `log`: the exported value (or the thrown error) and the log
afterwards. -/
def load {X E : Type}
    (vitePreprocess adapter htmlMinifierAdaptor : List (JSVal X) → Except E (JSVal X))
    (log : List (Call X)) : Except E (JSVal X) × List (Call X) :=
  config (mock Callee.vitePreprocess vitePreprocess)
         (mock Callee.adapter adapter)
         (mock Callee.htmlMinifierAdaptor htmlMinifierAdaptor) log

/-- Number of calls to the import `c` recorded in a log. -/
def callCount {X : Type} (c : Callee) (log : List (Call X)) : Nat :=
  (log.filter (fun call => call.callee = c)).length

/-- A behaviour that never throws, from a plain function. -/
def total {X E : Type} (f : List (JSVal X) → JSVal X) :
    List (JSVal X) → Except E (JSVal X) :=
  fun args => .ok (f args)

/-- Last character of a string, if any. -/
def lastChar (s : String) : Option Char := s.data.getLast?

/-! ## Stand-ins used at concrete inputs -/

/-- A preprocessor factory returning the package value `0`. -/
def stubPreprocess : List (JSVal Nat) → JSVal Nat := fun _ => .ext 0

/-- Another preprocessor factory, returning the package value `7`. -/
def stubPreprocessAlt : List (JSVal Nat) → JSVal Nat := fun _ => .ext 7

/-- An adapter factory returning its options tagged as an array `[1, options…]`. -/
def stubAdapter : List (JSVal Nat) → JSVal Nat := fun args => .arr (.ext 1 :: args)

/-- A wrapper returning its argument tagged as an array `[2, adapter…]`. -/
def stubWrapper : List (JSVal Nat) → JSVal Nat := fun args => .arr (.ext 2 :: args)

/-! ## Shared lemmas -/

/-- The exported value with side-effect-free imports, written out. -/
theorem configValue_eq {X : Type}
    (vitePreprocess adapter htmlMinifierAdaptor : List (JSVal X) → JSVal X) :
    configValue vitePreprocess adapter htmlMinifierAdaptor =
      .obj [("preprocess", vitePreprocess []),
            ("compilerOptions", compilerOptions),
            ("kit", .obj [("adapter", htmlMinifierAdaptor [adapter [adapterOptions]]),
                          ("prerender", prerender),
                          ("alias", kitAlias)])] := rfl

/-- Evaluation against recording imports, unfolded: the three calls happen in source
order, and the first throw ends evaluation. -/
theorem load_eq {X E : Type}
    (vp ad hm : List (JSVal X) → Except E (JSVal X)) (log : List (Call X)) :
    load vp ad hm log =
      match vp [] with
      | .error e => (.error e, log ++ [⟨Callee.vitePreprocess, []⟩])
      | .ok p =>
        match ad [adapterOptions] with
        | .error e =>
          (.error e, log ++ [⟨Callee.vitePreprocess, []⟩, ⟨Callee.adapter, [adapterOptions]⟩])
        | .ok inner =>
          match hm [inner] with
          | .error e =>
            (.error e, log ++ [⟨Callee.vitePreprocess, []⟩,
                               ⟨Callee.adapter, [adapterOptions]⟩,
                               ⟨Callee.htmlMinifierAdaptor, [inner]⟩])
          | .ok w =>
            (.ok (configValue (fun _ => p) (fun _ => inner) (fun _ => w)),
             log ++ [⟨Callee.vitePreprocess, []⟩,
                     ⟨Callee.adapter, [adapterOptions]⟩,
                     ⟨Callee.htmlMinifierAdaptor, [inner]⟩]) := by
  simp only [load, config, mock, bind, pure]
  cases h1 : vp [] with
  | error e => rfl
  | ok p =>
    cases h2 : ad [adapterOptions] with
    | error e => simp
    | ok inner =>
      cases h3 : hm [inner] with
      | error e => simp [h3]
      | ok w => simp [h3, configValue_eq]

/-- With imports that never throw, evaluation returns the exported value and records
exactly three calls. -/
theorem load_total {X E : Type}
    (vp ad hm : List (JSVal X) → JSVal X) (log : List (Call X)) :
    load (total vp : List (JSVal X) → Except E (JSVal X)) (total ad) (total hm) log =
      (.ok (configValue vp ad hm),
       log ++ [⟨Callee.vitePreprocess, []⟩,
               ⟨Callee.adapter, [adapterOptions]⟩,
               ⟨Callee.htmlMinifierAdaptor, [ad [adapterOptions]]⟩]) := by
  rw [load_eq]
  simp [total, configValue_eq]

/-- Call counts add up over concatenated logs. -/
theorem callCount_append {X : Type} (c : Callee) (l1 l2 : List (Call X)) :
    callCount c (l1 ++ l2) = callCount c l1 + callCount c l2 := by
  simp [callCount]

/-! ## Claims -/

/-- C1: for every adapter factory `A`, minifying wrapper `W` and preprocessor factory
`P`, the exported `kit.adapter` is `W(A({fallback: 'index.html', precompress: true}))`;
among the recorded calls, the adapter factory is called once, with exactly that options
object, and the wrapper is called once, afterwards, with exactly the adapter factory's
result. -/
theorem C1_adapter_composition {X : Type} (P A W : List (JSVal X) → JSVal X) :
    (configValue P A W).getPath ["kit", "adapter"] =
        some (W [A [.obj [("fallback", .str "index.html"), ("precompress", .bool true)]]])
    ∧ ∀ (E : Type),
        ((load (total P : List (JSVal X) → Except E (JSVal X)) (total A) (total W) []).2.filter
            (fun call => call.callee ≠ Callee.vitePreprocess)) =
          [⟨Callee.adapter,
             [.obj [("fallback", .str "index.html"), ("precompress", .bool true)]]⟩,
           ⟨Callee.htmlMinifierAdaptor,
             [A [.obj [("fallback", .str "index.html"), ("precompress", .bool true)]]]⟩] := by
  refine ⟨rfl, fun E => ?_⟩
  rw [load_total]
  simp [adapterOptions]

/-- C2: in the exported config, `kit.alias` maps `$` to `src`, `$components` to
`src/lib/components` and `$assets` to `src/assets` (and has no other key), and none of
the three strings ends with `/`. -/
theorem C2_alias_entries {X : Type} (P A W : List (JSVal X) → JSVal X) :
    (configValue P A W).getPath ["kit", "alias", "$"] = some (.str "src")
    ∧ (configValue P A W).getPath ["kit", "alias", "$components"]
        = some (.str "src/lib/components")
    ∧ (configValue P A W).getPath ["kit", "alias", "$assets"] = some (.str "src/assets")
    ∧ ((configValue P A W).getPath ["kit", "alias"]).map JSVal.keys
        = some ["$", "$components", "$assets"]
    ∧ lastChar "src" ≠ some '/'
    ∧ lastChar "src/lib/components" ≠ some '/'
    ∧ lastChar "src/assets" ≠ some '/' := by
  refine ⟨rfl, rfl, rfl, rfl, ?_, ?_, ?_⟩ <;> decide

/-- C3: for every choice of the three imports, the exported config has
`compilerOptions.runes` equal to `true` and `compilerOptions.preserveComments` equal to
`false`. -/
theorem C3_runes_and_comments {X : Type} (P A W : List (JSVal X) → JSVal X) :
    (configValue P A W).getPath ["compilerOptions", "runes"] = some (.bool true)
    ∧ (configValue P A W).getPath ["compilerOptions", "preserveComments"]
        = some (.bool false) :=
  ⟨rfl, rfl⟩

/-- C4: in the exported config, `kit.prerender.entries` is the empty array, of length
0. -/
theorem C4_prerender_entries_empty {X : Type} (P A W : List (JSVal X) → JSVal X) :
    (configValue P A W).getPath ["kit", "prerender", "entries"] = some (.arr [])
    ∧ ((configValue P A W).getPath ["kit", "prerender", "entries"]).bind JSVal.length?
        = some 0 :=
  ⟨rfl, rfl⟩

/-- C9: the `preprocess` field is exactly the value returned by `vitePreprocess()`, and
the recorded calls to `vitePreprocess` are one call with an empty argument list. -/
theorem C9_single_preprocessor {X : Type} (P A W : List (JSVal X) → JSVal X) :
    (configValue P A W).get "preprocess" = some (P [])
    ∧ ∀ (E : Type),
        ((load (total P : List (JSVal X) → Except E (JSVal X)) (total A) (total W) []).2.filter
            (fun call => call.callee = Callee.vitePreprocess)) =
          [⟨Callee.vitePreprocess, []⟩] := by
  refine ⟨rfl, fun E => ?_⟩
  rw [load_total]
  simp

/-- C10: `compilerOptions` has exactly the five flags `runes`, `preserveComments`,
`preserveWhitespace`, `discloseVersion` and `modernAst`, with `preserveWhitespace` and
`discloseVersion` equal to `false` and `modernAst` equal to `true`. -/
theorem C10_compiler_flags {X : Type} (P A W : List (JSVal X) → JSVal X) :
    ((configValue P A W).get "compilerOptions").map JSVal.keys
        = some ["runes", "preserveComments", "preserveWhitespace", "discloseVersion",
                "modernAst"]
    ∧ (configValue P A W).getPath ["compilerOptions", "preserveWhitespace"]
        = some (.bool false)
    ∧ (configValue P A W).getPath ["compilerOptions", "discloseVersion"]
        = some (.bool false)
    ∧ (configValue P A W).getPath ["compilerOptions", "modernAst"] = some (.bool true) :=
  ⟨rfl, rfl, rfl, rfl⟩

/-- C5, as stated, fails: with recording stand-ins for the three imports and an empty
log, each import has been called once (not zero times) when construction is over. -/
theorem C5_zero_calls_refuted :
    callCount Callee.vitePreprocess
        (load (total stubPreprocess : List (JSVal Nat) → Except String (JSVal Nat))
          (total stubAdapter) (total stubWrapper) []).2 ≠ 0
    ∧ callCount Callee.adapter
        (load (total stubPreprocess : List (JSVal Nat) → Except String (JSVal Nat))
          (total stubAdapter) (total stubWrapper) []).2 ≠ 0
    ∧ callCount Callee.htmlMinifierAdaptor
        (load (total stubPreprocess : List (JSVal Nat) → Except String (JSVal Nat))
          (total stubAdapter) (total stubWrapper) []).2 ≠ 0 := by
  decide

/-- C5, amended: for all imports that do not throw, constructing the config calls each
of the three imports exactly once: every call count is one more than before. -/
theorem C5_each_import_called_once {X E : Type} (P A W : List (JSVal X) → JSVal X)
    (log : List (Call X)) (c : Callee) :
    callCount c
        (load (total P : List (JSVal X) → Except E (JSVal X)) (total A) (total W) log).2
      = callCount c log + 1 := by
  rw [load_total, callCount_append]
  cases c <;> simp [callCount]

/-- C6, as stated, fails: two choices of the imports give two different configs; the
`preprocess` field follows the preprocessor factory and `kit.adapter` follows the
wrapper. -/
theorem C6_config_depends_on_imports :
    configValue stubPreprocess stubAdapter stubWrapper
        ≠ configValue stubPreprocessAlt stubAdapter stubWrapper
    ∧ configValue stubPreprocess stubAdapter stubWrapper
        ≠ configValue stubPreprocess stubAdapter stubAdapter := by
  constructor <;>
    simp [configValue_eq, stubPreprocess, stubPreprocessAlt, stubAdapter, stubWrapper]

/-- C6, amended: `compilerOptions`, `kit.prerender` and `kit.alias` are literal
constants, the same for every choice of the imports; `preprocess` is the value returned
by the call `vitePreprocess()` and `kit.adapter` is the value returned by the call
`htmlMinifierAdaptor(adapter({fallback: 'index.html', precompress: true}))`, both calls
being made (and recorded) during construction; two choices of imports give the same
config exactly when these two returned values are the same. -/
theorem C6_literal_fields_and_computed_fields {X : Type}
    (P A W P2 A2 W2 : List (JSVal X) → JSVal X) :
    (configValue P A W).get "compilerOptions"
        = some (.obj [("runes", .bool true), ("preserveComments", .bool false),
                      ("preserveWhitespace", .bool false), ("discloseVersion", .bool false),
                      ("modernAst", .bool true)])
    ∧ (configValue P A W).getPath ["kit", "prerender"] = some (.obj [("entries", .arr [])])
    ∧ (configValue P A W).getPath ["kit", "alias"]
        = some (.obj [("$", .str "src"), ("$components", .str "src/lib/components"),
                      ("$assets", .str "src/assets")])
    ∧ (configValue P A W).keys = ["preprocess", "compilerOptions", "kit"]
    ∧ ((configValue P A W).get "kit").map JSVal.keys = some ["adapter", "prerender", "alias"]
    ∧ (configValue P A W).get "preprocess" = some (P [])
    ∧ (configValue P A W).getPath ["kit", "adapter"]
        = some (W [A [.obj [("fallback", .str "index.html"), ("precompress", .bool true)]]])
    ∧ (∀ (E : Type) (log : List (Call X)),
        load (total P : List (JSVal X) → Except E (JSVal X)) (total A) (total W) log
          = (.ok (configValue P A W),
             log ++ [⟨Callee.vitePreprocess, []⟩,
                     ⟨Callee.adapter,
                       [.obj [("fallback", .str "index.html"), ("precompress", .bool true)]]⟩,
                     ⟨Callee.htmlMinifierAdaptor,
                       [A [.obj [("fallback", .str "index.html"),
                                 ("precompress", .bool true)]]]⟩]))
    ∧ (configValue P A W = configValue P2 A2 W2 ↔
        P [] = P2 []
        ∧ W [A [.obj [("fallback", .str "index.html"), ("precompress", .bool true)]]]
            = W2 [A2 [.obj [("fallback", .str "index.html"), ("precompress", .bool true)]]])
    ∧ (configValue P A W = configValue P2 A2 W2 ↔
        (configValue P A W).get "preprocess" = (configValue P2 A2 W2).get "preprocess"
        ∧ (configValue P A W).getPath ["kit", "adapter"]
            = (configValue P2 A2 W2).getPath ["kit", "adapter"]) := by
  have e1 : ∀ (p a w : List (JSVal X) → JSVal X),
      (configValue p a w).get "preprocess" = some (p []) := fun _ _ _ => rfl
  have e2 : ∀ (p a w : List (JSVal X) → JSVal X),
      (configValue p a w).getPath ["kit", "adapter"] = some (w [a [adapterOptions]]) :=
    fun _ _ _ => rfl
  refine ⟨rfl, rfl, rfl, rfl, rfl, rfl, rfl, ?_, ?_, ?_⟩
  · intro E log
    exact load_total P A W log
  · simp [configValue_eq, adapterOptions]
  · rw [e1, e1, e2, e2]
    simp [configValue_eq]

/-- The thrown error or returned value does not depend on the call log. -/
theorem load_fst_independent {X E : Type}
    (vp ad hm : List (JSVal X) → Except E (JSVal X)) (log1 log2 : List (Call X)) :
    (load vp ad hm log1).1 = (load vp ad hm log2).1 := by
  rw [load_eq, load_eq]
  cases h1 : vp [] with
  | error e => rfl
  | ok p =>
    cases h2 : ad [adapterOptions] with
    | error e => rfl
    | ok inner =>
      cases h3 : hm [inner] with
      | error e => simp [h3]
      | ok w => simp [h3]

/-- C7: for every choice of the three imports that never throw, construction returns a
config (the object literal holding whatever values the imports returned) and not an
error; and for arbitrary imports, an error leaving construction is an error thrown by
one of the three calls, so construction itself rejects nothing. -/
theorem C7_construction_cannot_fail {X E : Type}
    (vp ad hm : List (JSVal X) → Except E (JSVal X)) (log : List (Call X))
    (hvp : ∀ args, ∃ v, vp args = .ok v)
    (had : ∀ args, ∃ v, ad args = .ok v)
    (hhm : ∀ args, ∃ v, hm args = .ok v) :
    (∃ p inner w, vp [] = .ok p ∧ ad [adapterOptions] = .ok inner ∧ hm [inner] = .ok w
        ∧ (load vp ad hm log).1
            = .ok (configValue (fun _ => p) (fun _ => inner) (fun _ => w)))
    ∧ (∀ (vp2 ad2 hm2 : List (JSVal X) → Except E (JSVal X)) (log2 : List (Call X)) (e : E),
        (load vp2 ad2 hm2 log2).1 = .error e →
          vp2 [] = .error e ∨ ad2 [adapterOptions] = .error e
            ∨ ∃ inner, ad2 [adapterOptions] = .ok inner ∧ hm2 [inner] = .error e) := by
  constructor
  · obtain ⟨p, hp⟩ := hvp []
    obtain ⟨inner, hinner⟩ := had [adapterOptions]
    obtain ⟨w, hw⟩ := hhm [inner]
    refine ⟨p, inner, w, hp, hinner, hw, ?_⟩
    rw [load_eq]
    simp [hp, hinner, hw]
  · intro vp2 ad2 hm2 log2 e h
    rw [load_eq] at h
    cases h1 : vp2 [] with
    | error e1 =>
      rw [h1] at h
      simp only [Except.error.injEq] at h
      exact Or.inl (by rw [h])
    | ok p =>
      cases h2 : ad2 [adapterOptions] with
      | error e2 =>
        simp only [h1, h2, Except.error.injEq] at h
        exact Or.inr (Or.inl (by rw [h]))
      | ok inner =>
        cases h3 : hm2 [inner] with
        | error e3 =>
          simp only [h1, h2, h3, Except.error.injEq] at h
          exact Or.inr (Or.inr ⟨inner, rfl, by rw [h3, h]⟩)
        | ok w =>
          simp [h1, h2, h3] at h

/-- C7 at concrete imports: three stand-ins that never throw. -/
theorem C7_construction_cannot_fail_witness :
    (∀ args, ∃ v, (total stubPreprocess : List (JSVal Nat) → Except String (JSVal Nat)) args
        = .ok v)
    ∧ (∃ p inner w,
        (total stubPreprocess : List (JSVal Nat) → Except String (JSVal Nat)) [] = .ok p
        ∧ (total stubAdapter : List (JSVal Nat) → Except String (JSVal Nat)) [adapterOptions]
            = .ok inner
        ∧ (total stubWrapper : List (JSVal Nat) → Except String (JSVal Nat)) [inner] = .ok w
        ∧ (load (total stubPreprocess : List (JSVal Nat) → Except String (JSVal Nat))
              (total stubAdapter) (total stubWrapper) []).1
            = .ok (configValue (fun _ => p) (fun _ => inner) (fun _ => w))) :=
  ⟨fun _ => ⟨_, rfl⟩,
   (C7_construction_cannot_fail (total stubPreprocess) (total stubAdapter)
      (total stubWrapper) [] (fun _ => ⟨_, rfl⟩) (fun _ => ⟨_, rfl⟩) (fun _ => ⟨_, rfl⟩)).1⟩

/-- C8: for every fixed choice of the three imports (each a function of its arguments
only), constructing the config twice in a row gives the same outcome, whatever calls
were recorded before, and the two configs agree at every property path. -/
theorem C8_construction_deterministic {X E : Type}
    (vp ad hm : List (JSVal X) → Except E (JSVal X)) (log : List (Call X)) :
    (load vp ad hm (load vp ad hm log).2).1 = (load vp ad hm log).1
    ∧ ∀ path : List String,
        (load vp ad hm (load vp ad hm log).2).1.toOption.bind (fun v => v.getPath path)
          = (load vp ad hm log).1.toOption.bind (fun v => v.getPath path) := by
  have h := load_fst_independent vp ad hm (load vp ad hm log).2 log
  exact ⟨h, fun path => by rw [h]⟩

end PicoRET
